import Mathlib

/-!
Verification of the local session manager handler
(`LocalSessionManagerHandlerImpl`) of the magma gateway: session
creation / termination, the epoch-based dataplane resynchronization,
the usage reporting loop and the MAC-address formatting helper.

Pure functions of the source are translated directly; the
asynchronous, callback-driven parts are embedded as explicit state
passing: each handler is a Lean function from the orchestrator state
(plus the inbound request) to the new state together with the list of
collaborator calls it issued, and each completion callback is a Lean
function from the call outcome to the state change it performs.
Collaborator components that live outside the translated sources
(the enforcer's session table and credit bookkeeping) are modelled
from the specification and are marked as such in their doc comments.
-/

namespace Magma

/-! ## gRPC status model -/

/-- A gRPC status as observed by the handler: either OK or an error
carrying a numeric status code and a message. -/
inductive GStatus where
  | ok : GStatus
  | err (code : Nat) (msg : String) : GStatus
deriving DecidableEq, Repr

/-- The C++ predicate `status.ok()` of grpc::Status. -/
def GStatus.isOk : GStatus → Bool
  | GStatus.ok => true
  | GStatus.err _ _ => false

/-- The numeric value of grpc::FAILED_PRECONDITION. -/
def FAILED_PRECONDITION : Nat := 9

/-! ## MAC-address formatting (convert_mac_addr_to_str) -/

/-- The static member `hex_digit_` of LocalSessionManagerHandlerImpl. -/
def hex_digit_ : String := "0123456789abcdef"

/-- The character list of `hex_digit_`, used for indexing as the C++
code indexes the string. -/
def hexChars : List Char := hex_digit_.toList

/-- One iteration body of the loop in `convert_mac_addr_to_str`:
render byte `b` (a `char` converted to `unsigned char`, hence reduced
mod 256) as two hex digits, preceded by a colon when `i > 0`
(here: when `first` is false). -/
def macLoop : List Nat → Bool → List Char
  | [], _ => []
  | b :: rest, first =>
    let c := b % 256
    (if first then [] else [':']) ++
      [hexChars.getD (c >>> 4) ' ', hexChars.getD (c &&& 0x0F) ' '] ++
      macLoop rest false

/-- Translation of `LocalSessionManagerHandlerImpl::convert_mac_addr_to_str`: the
empty input yields the empty string, otherwise each byte is rendered
as two hex digits, bytes separated by a single colon. -/
def convert_mac_addr_to_str (mac_addr : List Nat) : String :=
  if mac_addr.length = 0 then ""
  else String.mk (macLoop mac_addr true)

/-- Specification-side rendering of one byte as two lowercase hex
digits; `convert_mac_addr_to_str` is proved to be the colon-separated
concatenation of these. -/
def byteHex (b : Nat) : String :=
  String.mk [hexChars.getD ((b % 256) >>> 4) ' ', hexChars.getD ((b % 256) &&& 0x0F) ' ']

/-! ## Dataplane setup callback (handle_setup_callback) -/

/-- The result values of `SetupFlowsResult` as used by the handler. -/
inductive SetupResult where
  | SUCCESS : SetupResult
  | FAILURE : SetupResult
  | OUTDATED_EPOCH : SetupResult
deriving DecidableEq, Repr

/-- An action scheduled by the setup callback: re-issue the identical
`enforcer_->setup(epoch, handle_setup_callback)` call after the fixed
`retry_timeout_` delay. -/
inductive SetupAction where
  | scheduleRetry (epoch : Nat) : SetupAction
deriving DecidableEq, Repr

/-- Translation of `LocalSessionManagerHandlerImpl::handle_setup_callback`, returning
the list of retry actions it schedules.  The source first checks the
transport status (scheduling a retry when it is not OK) and then,
in a separate (not `else`) conditional chain, inspects `resp.result()`:
OUTDATED_EPOCH only logs, FAILURE schedules a retry, otherwise
(SUCCESS) only logs. -/
def handle_setup_callback (epoch : Nat) (status : GStatus) (result : SetupResult) :
    List SetupAction :=
  (if !status.isOk then [SetupAction.scheduleRetry epoch] else []) ++
  (match result with
   | SetupResult.OUTDATED_EPOCH => []
   | SetupResult.FAILURE => [SetupAction.scheduleRetry epoch]
   | SetupResult.SUCCESS => [])

/-! ## Session data model -/

/-- The fields of `LocalCreateSessionRequest` read by the handler.
`imsi` is `request->sid().id()`; `hardware_addr` is the raw byte
string. -/
structure LocalCreateSessionRequest where
  imsi : String
  ue_ipv4 : String
  spgw_ipv4 : String
  msisdn : String
  apn : String
  imei : String
  plmn_id : String
  imsi_plmn_id : String
  user_location : String
  rat_type : Nat
  hardware_addr : List Nat
  radius_session_id : String
  bearer_id : Nat
  has_qos_info : Bool
  qos_class_id : Nat
deriving DecidableEq, Repr

/-- The struct `SessionState::Config` as aggregated in `CreateSession`
(qos folded in: `enabled` flag plus the class id, which C++ aggregate
initialization leaves at 0 when QoS info is absent). -/
structure Config where
  ue_ipv4 : String
  spgw_ipv4 : String
  msisdn : String
  apn : String
  imei : String
  plmn_id : String
  imsi_plmn_id : String
  user_location : String
  rat_type : Nat
  mac_addr : String
  hardware_addr : List Nat
  radius_session_id : String
  bearer_id : Nat
  qos_enabled : Bool
  qos_qci : Nat
deriving DecidableEq, Repr

/-- The `cfg` value built at the top of
`LocalSessionManagerHandlerImpl::CreateSession` from the request. -/
def build_config (request : LocalCreateSessionRequest) : Config :=
  { ue_ipv4 := request.ue_ipv4
    spgw_ipv4 := request.spgw_ipv4
    msisdn := request.msisdn
    apn := request.apn
    imei := request.imei
    plmn_id := request.plmn_id
    imsi_plmn_id := request.imsi_plmn_id
    user_location := request.user_location
    rat_type := request.rat_type
    mac_addr := convert_mac_addr_to_str request.hardware_addr
    hardware_addr := request.hardware_addr
    radius_session_id := request.radius_session_id
    bearer_id := request.bearer_id
    qos_enabled := request.has_qos_info
    qos_qci := if request.has_qos_info then request.qos_class_id else 0 }

/-- Modelled from the spec: the SessionTable, the in-memory mapping
from subscriber id (IMSI) to the live session's Config, owned by the
enforcer (`LocalEnforcer`, whose sources are not part of the
translated files).  The spec's invariant allows at most one live
session per subscriber id. -/
def SessionTable := List (String × Config)

instance : DecidableEq SessionTable := by
  unfold SessionTable
  infer_instance

/-- Modelled from the spec: `LocalEnforcer::is_imsi_duplicate` — a
duplicate-subscriber query against the SessionTable. -/
def is_imsi_duplicate (t : SessionTable) (imsi : String) : Bool :=
  t.any fun p => p.1 = imsi

/-- Modelled from the spec: `LocalEnforcer::is_session_duplicate` — a
duplicate-session query comparing the stored Config for the subscriber
with the incoming one (the spec compares Config equality). -/
def is_session_duplicate (t : SessionTable) (imsi : String) (cfg : Config) : Bool :=
  t.any fun p => p.1 = imsi && p.2 = cfg

/-- Modelled from the spec: the session id generator
(`id_gen_.gen_session_id`), which derives the session id
deterministically from the subscriber id. -/
def gen_session_id (imsi : String) : String :=
  imsi ++ "-0001"

/-- Modelled from the spec: `LocalEnforcer::terminate_subscriber` —
when a session for the subscriber exists, it is deleted from the
SessionTable (the spec removes it unconditionally, before the billing
termination report resolves) and the termination callback is invoked
with the final-usage termination request; when no session exists the
enforcer raises `SessionNotFound`, modelled as `none`. -/
def terminate_subscriber (t : SessionTable) (imsi : String) :
    Option SessionTable :=
  if is_imsi_duplicate t imsi then
    some (t.filter fun p => p.1 ≠ imsi)
  else
    none

/-- Modelled from the spec: `LocalEnforcer::init_session_credit` —
initializes credit bookkeeping and registers the session; its success
is the enforcer's internal decision, supplied here as the oracle
`initOk`.  On success the session enters the SessionTable; on failure
the table is untouched. -/
def init_session_credit (initOk : Bool) (t : SessionTable) (imsi : String)
    (cfg : Config) : Bool × SessionTable :=
  (initOk, if initOk then (imsi, cfg) :: t else t)

/-- A collaborator call issued by the handler and not yet resolved. -/
inductive Call where
  | billingCreate (imsi sid : String) (cfg : Config)
  | terminationReport (imsi : String)
  | setupCall (epoch : Nat)
deriving DecidableEq, Repr

/-! ## Termination (EndSession, report_termination) -/

/-- The completion callback of `report_termination`: both on success
and on failure of the billing termination call its body only logs, so
its effect on the SessionTable is the identity. -/
def report_termination_callback (t : SessionTable) (status : GStatus) : SessionTable :=
  t

/-- Translation of `LocalSessionManagerHandlerImpl::EndSession`: the work enqueued on
the event base runs `terminate_subscriber`; its termination callback
issues the asynchronous billing termination report
(`report_termination`), and the caller is answered OK; when the
enforcer raises `SessionNotFound` the caller is answered
FAILED_PRECONDITION and no call is issued.  Event-base work is
modelled as running at its enqueue point (the single-worker
discipline). -/
def EndSession (t : SessionTable) (imsi : String) :
    SessionTable × List Call × GStatus :=
  match terminate_subscriber t imsi with
  | some t' => (t', [Call.terminationReport imsi], GStatus.ok)
  | none => (t, [], GStatus.err FAILED_PRECONDITION ("Session not found"))

/-! ## Session creation (CreateSession, send_create_session) -/

/-- Translation of `LocalSessionManagerHandlerImpl::CreateSession`: builds the Config
from the request; when the subscriber already has a session, an
identical Config makes the handler bail out with a bare `return` —
no call is issued and the response callback is never invoked (the
response component is `none`); a different Config first runs
EndSession for the subscriber (with a no-op response callback) and
then proceeds; otherwise it proceeds directly to
`send_create_session`, which issues the billing create call (left
unresolved here; the response is produced by
`create_session_callback` when the call completes). -/
def CreateSession (t : SessionTable) (request : LocalCreateSessionRequest) :
    SessionTable × List Call × Option GStatus :=
  let imsi := request.imsi
  let sid := gen_session_id imsi
  let cfg := build_config request
  if is_imsi_duplicate t imsi then
    if is_session_duplicate t imsi cfg then
      (t, [], none)
    else
      let r := EndSession t imsi
      (r.1, r.2.1 ++ [Call.billingCreate imsi sid cfg], none)
  else
    (t, [Call.billingCreate imsi sid cfg], none)

/-- The completion callback installed by `send_create_session` on the
billing create call: on transport success it runs
`init_session_credit` and downgrades the status to
FAILED_PRECONDITION when initialization fails; on transport failure it
only logs; either way it then invokes the response callback with the
resulting status.  Returns the new SessionTable, the status delivered
to the caller, and whether `init_session_credit` was invoked. -/
def create_session_callback (initOk : Bool) (t : SessionTable) (imsi : String)
    (cfg : Config) (status : GStatus) : SessionTable × GStatus × Bool :=
  if status.isOk then
    let r := init_session_credit initOk t imsi cfg
    if !r.1 then
      (r.2, GStatus.err FAILED_PRECONDITION ("Failed to initialize session"), true)
    else
      (r.2, status, true)
  else
    (t, status, false)

/-! ## Concrete fixtures used by witnesses and counterexamples -/

/-- A concrete create request. -/
def reqA : LocalCreateSessionRequest :=
  { imsi := "IMSI001"
    ue_ipv4 := "10.0.0.1"
    spgw_ipv4 := "10.0.0.2"
    msisdn := "5550001"
    apn := "apn1"
    imei := "imei1"
    plmn_id := "00101"
    imsi_plmn_id := "00101"
    user_location := "loc"
    rat_type := 1
    hardware_addr := [26, 255, 0]
    radius_session_id := "rs1"
    bearer_id := 5
    has_qos_info := true
    qos_class_id := 9 }

/-- The same subscriber with a different APN, hence a different Config. -/
def reqB : LocalCreateSessionRequest :=
  { reqA with apn := "apn2" }

/-- The Config built from `reqA`. -/
def cfgA : Config := build_config reqA

/-- The Config built from `reqB`. -/
def cfgB : Config := build_config reqB

/-! ## Epoch state and dataplane resynchronization -/

/-- The epoch fields of the handler (`current_epoch_`,
`reported_epoch_`; both start at 0 in the constructor). -/
structure EpochState where
  current_epoch : Nat
  reported_epoch : Nat
deriving DecidableEq, Repr

/-- Translation of `LocalSessionManagerHandlerImpl::is_pipelined_restarted`: true
when `current_epoch_` is 0 or differs from `reported_epoch_`. -/
def is_pipelined_restarted (s : EpochState) : Bool :=
  if s.current_epoch = 0 || s.current_epoch != s.reported_epoch then
    true
  else
    false

/-- The epoch-handling part of
`LocalSessionManagerHandlerImpl::ReportRuleStats` (the usage
aggregation it also performs is embedded separately in the usage-loop
model below): store the report's epoch in `reported_epoch_`; when
`is_pipelined_restarted` holds, dispatch one asynchronous
`restart_pipelined(reported_epoch_)` setup call (returned here as an
issued, unresolved call) and set `current_epoch_` to the reported
epoch right away — the source comment: to prevent double setup call
requests — before the setup call resolves; finally acknowledge the
caller with OK. -/
def ReportRuleStats_epoch (s : EpochState) (epoch : Nat) :
    EpochState × List Call × GStatus :=
  let s1 : EpochState := { s with reported_epoch := epoch }
  if is_pipelined_restarted s1 then
    ({ s1 with current_epoch := s1.reported_epoch },
     [Call.setupCall s1.reported_epoch], GStatus.ok)
  else
    (s1, [], GStatus.ok)

/-! ## The usage reporting loop -/

/-- The parts of an `UpdateSessionRequest` inspected by the loop:
the charging updates and the usage-monitor updates (records kept
abstract as numbers). -/
structure UpdateSessionRequest where
  updates : List Nat
  usage_monitors : List Nat
deriving DecidableEq, Repr

/-- The loop's stop test (line for line:
`request.updates_size() == 0 && request.usage_monitors_size() == 0`). -/
def UpdateSessionRequest.isEmpty (r : UpdateSessionRequest) : Bool :=
  r.updates.length = 0 && r.usage_monitors.length = 0

/-- Pointwise concatenation of two update requests. -/
def UpdateSessionRequest.merge (a b : UpdateSessionRequest) : UpdateSessionRequest :=
  ⟨a.updates ++ b.updates, a.usage_monitors ++ b.usage_monitors⟩

/-- The empty update request. -/
def emptyUpdates : UpdateSessionRequest := ⟨[], []⟩

/-- Modelled from the spec: the CreditEngine state the loop interacts
with — the buffered pending updates awaiting report, plus the list of
acknowledgements already applied (response ids, kept abstract). -/
structure CreditEngine where
  pending : UpdateSessionRequest
  applied : List Nat
deriving DecidableEq, Repr

/-- Modelled from the spec: `enforcer_->collect_updates()` pulls the
snapshot of all pending updates, leaving the pending queue empty. -/
def collect_updates (ce : CreditEngine) : UpdateSessionRequest × CreditEngine :=
  (ce.pending, { ce with pending := emptyUpdates })

/-- Modelled from the spec: `enforcer_->reset_updates(request)` rolls
the unacknowledged snapshot back into the pending queue (joining any
updates that accumulated in the meantime). -/
def reset_updates (ce : CreditEngine) (request : UpdateSessionRequest) : CreditEngine :=
  { ce with pending := request.merge ce.pending }

/-- Modelled from the spec: `enforcer_->update_session_credit(response)`
applies the acknowledgement to the credit bookkeeping; it does not
touch the pending queue. -/
def update_session_credit (ce : CreditEngine) (respId : Nat) : CreditEngine :=
  { ce with applied := ce.applied ++ [respId] }

/-- Modelled from the spec: `enforcer_->aggregate_records(records)`
buffers freshly reported usage into the pending queue. -/
def aggregate_records (ce : CreditEngine) (records : UpdateSessionRequest) : CreditEngine :=
  { ce with pending := ce.pending.merge records }

/-- The environment's behaviour at one report round: the transport
status of the report call (`ok`), the records that arrive and are
aggregated while the call is in flight, and the response delivered on
success. -/
structure RoundOutcome where
  ok : Bool
  arrivals : UpdateSessionRequest
  respId : Nat
deriving DecidableEq, Repr

/-- Translation of `LocalSessionManagerHandlerImpl::check_usage_for_reporting`, run
against a schedule of round outcomes: collect the snapshot of pending
updates; if both its update sets are empty, stop; otherwise issue one
report call carrying the full snapshot (recorded in the returned
list).  When the schedule still has an outcome for the call: records
arriving mid-flight are aggregated; on transport failure the whole
snapshot is rolled back via `reset_updates` and the loop stops; on
success the acknowledgement is applied via `update_session_credit` and
the loop immediately re-invokes itself.  An exhausted schedule means
the issued call is still in flight when observation ends. -/
def check_usage_for_reporting : CreditEngine → List RoundOutcome →
    CreditEngine × List UpdateSessionRequest
  | ce, outcomes =>
    let c := collect_updates ce
    if c.1.isEmpty then
      (ce, [])
    else
      match outcomes with
      | [] => (c.2, [c.1])
      | o :: rest =>
        let ce2 := aggregate_records c.2 o.arrivals
        if o.ok then
          let r := check_usage_for_reporting (update_session_credit ce2 o.respId) rest
          (r.1, c.1 :: r.2)
        else
          (reset_updates ce2 c.1, [c.1])

/-! ## In-flight report calls: the event-loop view

To reason about how many report calls are outstanding at once, the
same handler code is viewed as a transition system on the worker
context: the state keeps the CreditEngine plus the list of issued,
not-yet-completed report calls, and the events are the inbound
`ReportRuleStats` arrivals and the completions (success or failure)
of the oldest outstanding call. -/

/-- CreditEngine plus the report calls currently in flight. -/
structure LoopState where
  engine : CreditEngine
  inflight : List UpdateSessionRequest
deriving DecidableEq, Repr

/-- One entry into `check_usage_for_reporting` up to its suspension
point: collect the snapshot; if it is empty, stop; otherwise issue a
report call, which joins the in-flight list until its completion
event arrives.  There is no guard in the source against issuing while
another call is outstanding. -/
def check_usage_entry (s : LoopState) : LoopState :=
  let c := collect_updates s.engine
  if c.1.isEmpty then
    s
  else
    { engine := c.2, inflight := s.inflight ++ [c.1] }

/-- An event processed on the worker context. -/
inductive LoopEvent where
  | ruleStats (records : UpdateSessionRequest) : LoopEvent
  | completeOk (respId : Nat) : LoopEvent
  | completeFail : LoopEvent
deriving DecidableEq, Repr

/-- The handler's reaction to one event.  `ruleStats` is the body
`ReportRuleStats` enqueues: `aggregate_records` then
`check_usage_for_reporting`.  The completion events run the completion
lambda of `report_updates` for the oldest outstanding call: on
success, `update_session_credit` then the recursive
`check_usage_for_reporting`; on failure, `reset_updates` with the
completed call's request and no further action. -/
def loopStep (s : LoopState) : LoopEvent → LoopState
  | LoopEvent.ruleStats records =>
    check_usage_entry { s with engine := aggregate_records s.engine records }
  | LoopEvent.completeOk respId =>
    match s.inflight with
    | [] => s
    | _ :: rest =>
      check_usage_entry
        { engine := update_session_credit s.engine respId, inflight := rest }
  | LoopEvent.completeFail =>
    match s.inflight with
    | [] => s
    | request :: rest =>
      { engine := reset_updates s.engine request, inflight := rest }

/-- Running the worker context over a sequence of events. -/
def loopRun (s : LoopState) (events : List LoopEvent) : LoopState :=
  events.foldl loopStep s

/-- The idle initial state: nothing pending, nothing in flight. -/
def loopInit : LoopState := { engine := ⟨emptyUpdates, []⟩, inflight := [] }

/-- An event that is a completion of an outstanding call (not a fresh
rule-stat report). -/
def LoopEvent.isCompletion : LoopEvent → Bool
  | LoopEvent.ruleStats _ => false
  | LoopEvent.completeOk _ => true
  | LoopEvent.completeFail => true

/-! ### Lemmas about the MAC formatting loop -/

/-- Each character placed by `byteHex` is one of the sixteen lowercase
hex digits. -/
theorem byteHex_chars_mem (b : Nat) : ∀ c ∈ (byteHex b).data, c ∈ hexChars := by
  intro c hc
  have hlen : hexChars.length = 16 := by decide
  have h1 : (b % 256) >>> 4 < hexChars.length := by
    rw [Nat.shiftRight_eq_div_pow, hlen]
    omega
  have h2 : (b % 256) &&& 0x0F < hexChars.length := by
    have := Nat.and_le_right (n := b % 256) (m := 0x0F)
    omega
  have hc' : c ∈ [hexChars.getD ((b % 256) >>> 4) ' ', hexChars.getD ((b % 256) &&& 0x0F) ' '] := hc
  rcases List.mem_cons.mp hc' with h | h
  · rw [h, List.getD_eq_getElem _ _ h1]
    exact List.getElem_mem h1
  · rw [List.mem_singleton.mp h, List.getD_eq_getElem _ _ h2]
    exact List.getElem_mem h2

/-- The mid-loop part (`i > 0`) of the MAC formatting loop prefixes
every byte's two digits with a colon. -/
theorem macLoop_false_eq (l : List Nat) :
    macLoop l false = (l.map fun b => ':' :: (byteHex b).data).flatten := by
  induction l with
  | nil => rfl
  | cons b rest ih => simp [macLoop, byteHex, ih]

/-- Length of the mid-loop part: three characters per byte. -/
theorem macLoop_false_length (l : List Nat) :
    (macLoop l false).length = 3 * l.length := by
  induction l with
  | nil => rfl
  | cons b rest ih =>
    simp [macLoop, ih]
    ring

/-- Peeling one element off a colon-intercalation. -/
theorem intercalate_colon_cons (x : List Char) (xs : List (List Char)) :
    List.intercalate [':'] (x :: xs) = x ++ (xs.map fun cs => ':' :: cs).flatten := by
  induction xs generalizing x with
  | nil => simp [List.intercalate, List.intersperse]
  | cons y ys ih =>
    have hstep : List.intercalate [':'] (x :: y :: ys)
        = x ++ [':'] ++ List.intercalate [':'] (y :: ys) := by
      simp [List.intercalate, List.intersperse]
    rw [hstep, ih y]
    simp

/-- Claim C10: `convert_mac_addr_to_str` maps the empty byte string to
the empty string; on a nonempty input of n bytes it produces a string
of length 3n-1 whose character data is the single-colon-separated
concatenation of the bytes' renderings, where each byte is rendered by
`byteHex` as exactly two characters drawn from the lowercase hex digits
`hex_digit_`; and the Config built by CreateSession (`build_config`)
stores exactly this formatted string in its mac_addr field. -/
theorem mac_addr_format (l : List Nat) :
    (l = [] → convert_mac_addr_to_str l = "")
    ∧ (l ≠ [] → (convert_mac_addr_to_str l).length = 3 * l.length - 1)
    ∧ (convert_mac_addr_to_str l).data =
        List.intercalate [':'] (l.map fun b => (byteHex b).data)
    ∧ (∀ b ∈ l, (byteHex b).data.length = 2 ∧ ∀ c ∈ (byteHex b).data, c ∈ hexChars)
    ∧ (∀ request : LocalCreateSessionRequest,
        (build_config request).mac_addr = convert_mac_addr_to_str request.hardware_addr) := by
  refine ⟨?_, ?_, ?_, ?_, fun _ => rfl⟩
  · intro h; subst h; rfl
  · intro h
    match l with
    | [] => exact absurd rfl h
    | b :: rest =>
      show (convert_mac_addr_to_str (b :: rest)).data.length = _
      simp only [convert_mac_addr_to_str, List.length_cons]
      rw [if_neg (by simp)]
      show (macLoop (b :: rest) true).length = _
      simp [macLoop, macLoop_false_length, byteHex]
      omega
  · match l with
    | [] => rfl
    | b :: rest =>
      simp only [convert_mac_addr_to_str]
      rw [if_neg (by simp), List.map_cons, intercalate_colon_cons]
      show macLoop (b :: rest) true = _
      simp [macLoop, byteHex, macLoop_false_eq]
      exact congrArg List.flatten (List.map_congr_left fun _ _ => rfl)
  · intro b _
    exact ⟨rfl, byteHex_chars_mem b⟩

/-- Witness for C10 at the concrete byte string [0x1a, 0xff, 0x00]. -/
theorem mac_addr_format_witness :
    convert_mac_addr_to_str [26, 255, 0] = "1a:ff:00"
    ∧ (convert_mac_addr_to_str [26, 255, 0]).length = 3 * 3 - 1 :=
  ⟨by decide, (mac_addr_format [26, 255, 0]).2.1 (by decide)⟩

/-! ### The setup-callback retry policy -/

/-- Claim C9: for every completion of a dataplane setup call for some
epoch — under the gRPC discipline that a transport-failed call carries
the default-initialized response, whose result value is SUCCESS —
the callback schedules exactly one identical retry for the same epoch
on transport failure, schedules nothing on result OUTDATED_EPOCH,
schedules exactly one identical retry on result FAILURE, and takes no
further action on result SUCCESS. -/
theorem setup_callback_retry_policy (epoch : Nat) (status : GStatus) (result : SetupResult)
    (hgrpc : status.isOk = false → result = SetupResult.SUCCESS) :
    (status.isOk = false →
      handle_setup_callback epoch status result = [SetupAction.scheduleRetry epoch])
    ∧ (status.isOk = true → result = SetupResult.OUTDATED_EPOCH →
      handle_setup_callback epoch status result = [])
    ∧ (status.isOk = true → result = SetupResult.FAILURE →
      handle_setup_callback epoch status result = [SetupAction.scheduleRetry epoch])
    ∧ (status.isOk = true → result = SetupResult.SUCCESS →
      handle_setup_callback epoch status result = []) := by
  refine ⟨?_, ?_, ?_, ?_⟩
  · intro h
    rw [hgrpc h]
    simp [handle_setup_callback, h]
  · intro h hr
    subst hr
    simp [handle_setup_callback, h]
  · intro h hr
    subst hr
    simp [handle_setup_callback, h]
  · intro h hr
    subst hr
    simp [handle_setup_callback, h]

/-- Witness for C9: concrete completions for epoch 7. -/
theorem setup_callback_retry_policy_witness :
    handle_setup_callback 7 (GStatus.err 14 "unavailable") SetupResult.SUCCESS
      = [SetupAction.scheduleRetry 7]
    ∧ handle_setup_callback 7 GStatus.ok SetupResult.OUTDATED_EPOCH = []
    ∧ handle_setup_callback 7 GStatus.ok SetupResult.FAILURE
      = [SetupAction.scheduleRetry 7]
    ∧ handle_setup_callback 7 GStatus.ok SetupResult.SUCCESS = [] :=
  ⟨(setup_callback_retry_policy 7 (GStatus.err 14 "unavailable") SetupResult.SUCCESS
      (fun _ => rfl)).1 rfl,
   (setup_callback_retry_policy 7 GStatus.ok SetupResult.OUTDATED_EPOCH
      (by intro h; exact absurd h (by decide))).2.1 rfl rfl,
   (setup_callback_retry_policy 7 GStatus.ok SetupResult.FAILURE
      (by intro h; exact absurd h (by decide))).2.2.1 rfl rfl,
   (setup_callback_retry_policy 7 GStatus.ok SetupResult.SUCCESS
      (by intro h; exact absurd h (by decide))).2.2.2 rfl rfl⟩

/-! ## Termination and creation theorems -/

/-- Claim C2: EndSession on a subscriber with a live session removes
the session from the SessionTable and answers OK; the only collaborator
call it issues is the asynchronous billing termination report, and the
completion callback of that report leaves the SessionTable unchanged
for every completion status (success or failure) — the local cleanup
is never blocked or reversed by the report's outcome. -/
theorem end_session_removes_locally (t : SessionTable) (imsi : String)
    (h : is_imsi_duplicate t imsi = true) :
    (EndSession t imsi).2.2 = GStatus.ok
    ∧ is_imsi_duplicate (EndSession t imsi).1 imsi = false
    ∧ (EndSession t imsi).2.1 = [Call.terminationReport imsi]
    ∧ ∀ status : GStatus,
        report_termination_callback (EndSession t imsi).1 status = (EndSession t imsi).1 := by
  have ht : terminate_subscriber t imsi = some (t.filter fun p => p.1 ≠ imsi) := by
    rw [terminate_subscriber, if_pos h]
  refine ⟨?_, ?_, ?_, fun _ => rfl⟩
  · simp [EndSession, ht]
  · simp [EndSession, ht, is_imsi_duplicate, List.any_eq_true, List.mem_filter]
  · simp [EndSession, ht]

/-- Witness for C2: terminating the concrete session of subscriber
IMSI001 removes it and issues exactly the termination report. -/
theorem end_session_removes_locally_witness :
    (EndSession [("IMSI001", cfgA)] "IMSI001").2.2 = GStatus.ok
    ∧ is_imsi_duplicate (EndSession [("IMSI001", cfgA)] "IMSI001").1 "IMSI001" = false
    ∧ (EndSession [("IMSI001", cfgA)] "IMSI001").2.1 = [Call.terminationReport ("IMSI001")]
    ∧ ∀ status : GStatus,
        report_termination_callback (EndSession [("IMSI001", cfgA)] "IMSI001").1 status
          = (EndSession [("IMSI001", cfgA)] "IMSI001").1 :=
  end_session_removes_locally [("IMSI001", cfgA)] "IMSI001" (by decide)

/-- Claim C6: the billing-create completion callback invokes
CreditEngine initialization exactly when the billing call succeeded;
a billing transport failure leaves the SessionTable unchanged and
surfaces the transport status itself; a billing success followed by an
initialization failure leaves the SessionTable unchanged and surfaces
the distinct FAILED_PRECONDITION initialization error; only when both
succeed is the Session added, and in every failure mode the caller
receives a non-OK status. -/
theorem create_session_ordering (initOk : Bool) (t : SessionTable) (imsi : String)
    (cfg : Config) (status : GStatus) :
    ((create_session_callback initOk t imsi cfg status).2.2 = status.isOk)
    ∧ (status.isOk = false →
        create_session_callback initOk t imsi cfg status = (t, status, false))
    ∧ (status.isOk = true → initOk = false →
        create_session_callback initOk t imsi cfg status
          = (t, GStatus.err FAILED_PRECONDITION ("Failed to initialize session"), true))
    ∧ (status.isOk = true → initOk = true →
        create_session_callback initOk t imsi cfg status = ((imsi, cfg) :: t, status, true))
    ∧ (status.isOk = false ∨ initOk = false →
        (create_session_callback initOk t imsi cfg status).1 = t
        ∧ (create_session_callback initOk t imsi cfg status).2.1 ≠ GStatus.ok) := by
  cases status with
  | ok =>
    cases initOk with
    | false =>
      refine ⟨rfl, by simp [GStatus.isOk], fun _ _ => rfl, by simp, ?_⟩
      rintro (h | h)
      · simp [GStatus.isOk] at h
      · exact ⟨rfl, by simp [create_session_callback, init_session_credit, GStatus.isOk]⟩
    | true =>
      refine ⟨rfl, by simp [GStatus.isOk], by simp, fun _ _ => rfl, ?_⟩
      rintro (h | h) <;> simp [GStatus.isOk] at h
  | err c m =>
    refine ⟨rfl, fun _ => rfl, by simp [GStatus.isOk], by simp [GStatus.isOk], ?_⟩
    intro _
    exact ⟨rfl, by simp [create_session_callback, GStatus.isOk]⟩

/-- Witness for C6: both failure modes on a concrete input, with their
distinct surfaced statuses. -/
theorem create_session_ordering_witness :
    create_session_callback false [] "IMSI001" cfgA GStatus.ok
      = ([], GStatus.err FAILED_PRECONDITION ("Failed to initialize session"), true)
    ∧ create_session_callback true [] "IMSI001" cfgA (GStatus.err 14 "unavailable")
      = ([], GStatus.err 14 "unavailable", false) :=
  ⟨(create_session_ordering false [] "IMSI001" cfgA GStatus.ok).2.2.1 rfl rfl,
   (create_session_ordering true [] "IMSI001" cfgA (GStatus.err 14 "unavailable")).2.1 rfl⟩

/-- Claim C1 (failing input): a subscriber already holds a live
session created by a first CreateSession (one billing create call,
resolved successfully); a second CreateSession with the identical
request issues no call and creates no session — but it also returns
with the response component `none`: the handler bails out with a bare
`return` and the caller's response callback is never invoked, so no
success (nor any response at all) reaches the caller, contrary to the
claim.  Two identical calls do yield exactly one Session and exactly
one billing create call. -/
theorem duplicate_create_no_response :
    CreateSession [] reqA
      = ([], [Call.billingCreate ("IMSI001") (gen_session_id ("IMSI001")) cfgA], none)
    ∧ create_session_callback true [] "IMSI001" cfgA GStatus.ok
      = ([("IMSI001", cfgA)], GStatus.ok, true)
    ∧ CreateSession [("IMSI001", cfgA)] reqA = ([("IMSI001", cfgA)], [], none) := by
  refine ⟨?_, rfl, ?_⟩
  · show CreateSession [] reqA = _
    simp [CreateSession, is_imsi_duplicate, reqA, cfgA]
  · show CreateSession [("IMSI001", cfgA)] reqA = _
    simp [CreateSession, is_imsi_duplicate, is_session_duplicate, reqA, cfgA]

/-- Claim C8: a CreateSession for a subscriber whose live session has
a different Config first initiates the old session's termination (the
termination report is issued and left unresolved) and then issues the
billing create call for the new session — without waiting for the
termination report; resolving the billing create successfully places
the new session with the new Config in the SessionTable, and a later
completion of the old session's termination report (any status) does
not change that. -/
theorem replacement_on_conflicting_duplicate (t : SessionTable)
    (request : LocalCreateSessionRequest)
    (hdup : is_imsi_duplicate t request.imsi = true)
    (hdiff : is_session_duplicate t request.imsi (build_config request) = false) :
    (CreateSession t request).2.1
      = [Call.terminationReport request.imsi,
         Call.billingCreate request.imsi (gen_session_id request.imsi)
           (build_config request)]
    ∧ is_imsi_duplicate (CreateSession t request).1 request.imsi = false
    ∧ (create_session_callback true (CreateSession t request).1 request.imsi
        (build_config request) GStatus.ok).1
        = (request.imsi, build_config request) :: (CreateSession t request).1
    ∧ ∀ status : GStatus,
        report_termination_callback
          (create_session_callback true (CreateSession t request).1 request.imsi
            (build_config request) GStatus.ok).1 status
          = (request.imsi, build_config request) :: (CreateSession t request).1 := by
  have ht : terminate_subscriber t request.imsi
      = some (t.filter fun p => p.1 ≠ request.imsi) := by
    rw [terminate_subscriber, if_pos hdup]
  have hcs : CreateSession t request
      = ((EndSession t request.imsi).1,
         [Call.terminationReport request.imsi,
          Call.billingCreate request.imsi (gen_session_id request.imsi)
            (build_config request)], none) := by
    simp [CreateSession, hdup, hdiff, EndSession, ht]
  refine ⟨by rw [hcs], ?_, ?_, ?_⟩
  · rw [hcs]
    simp [EndSession, ht, is_imsi_duplicate, List.any_eq_true, List.mem_filter]
  · rfl
  · intro _
    rfl

/-- Witness for C8: replacing the session of IMSI001 (old Config
`cfgA`) by a create request with a different APN (`reqB`). -/
theorem replacement_on_conflicting_duplicate_witness :
    (CreateSession [("IMSI001", cfgA)] reqB).2.1
      = [Call.terminationReport ("IMSI001"),
         Call.billingCreate ("IMSI001") (gen_session_id ("IMSI001")) cfgB]
    ∧ is_imsi_duplicate (CreateSession [("IMSI001", cfgA)] reqB).1 "IMSI001" = false
    ∧ (create_session_callback true (CreateSession [("IMSI001", cfgA)] reqB).1 "IMSI001"
        cfgB GStatus.ok).1
        = ("IMSI001", cfgB) :: (CreateSession [("IMSI001", cfgA)] reqB).1 :=
  have h := replacement_on_conflicting_duplicate [("IMSI001", cfgA)] reqB
    (by decide) (by decide)
  ⟨h.1, h.2.1, h.2.2.1⟩

/-- Claim C5: when `current_epoch` is 0 or differs from the incoming
report's epoch `e`, ReportRuleStats dispatches exactly one setup call,
for epoch `e`, and the state it returns — while that setup call is
still unresolved — already has `current_epoch = e`; consequently a
second report with the same epoch `e` (for nonzero `e`) dispatches no
further setup call. -/
theorem epoch_resync_trigger (s : EpochState) (e : Nat)
    (h : s.current_epoch = 0 ∨ s.current_epoch ≠ e) :
    ReportRuleStats_epoch s e
      = ({ current_epoch := e, reported_epoch := e }, [Call.setupCall e], GStatus.ok)
    ∧ (e ≠ 0 →
        ReportRuleStats_epoch { current_epoch := e, reported_epoch := e } e
          = ({ current_epoch := e, reported_epoch := e }, [], GStatus.ok)) := by
  constructor
  · have hr : is_pipelined_restarted { s with reported_epoch := e } = true := by
      rcases h with h | h <;> simp [is_pipelined_restarted, h]
    simp [ReportRuleStats_epoch, hr]
  · intro he
    have hr : is_pipelined_restarted { current_epoch := e, reported_epoch := e } = false := by
      simp [is_pipelined_restarted, he]
    simp [ReportRuleStats_epoch, hr]

/-- Witness for C5: `current_epoch = 0`, a report with epoch 7. -/
theorem epoch_resync_trigger_witness :
    ReportRuleStats_epoch { current_epoch := 0, reported_epoch := 0 } 7
      = ({ current_epoch := 7, reported_epoch := 7 }, [Call.setupCall 7], GStatus.ok)
    ∧ ReportRuleStats_epoch { current_epoch := 7, reported_epoch := 7 } 7
      = ({ current_epoch := 7, reported_epoch := 7 }, [], GStatus.ok) :=
  have h := epoch_resync_trigger { current_epoch := 0, reported_epoch := 0 } 7
    (Or.inl rfl)
  ⟨h.1, h.2 (by decide)⟩

/-- Claim C3: a usage-report round whose report call fails rolls the
entire in-flight snapshot back into the CreditEngine's pending state —
the resulting pending queue is exactly the snapshot joined with
whatever arrived mid-flight, so no record is lost and none duplicated,
and no acknowledgement is applied — and the loop issues no further
report call no matter what the rest of the schedule would have
allowed: the single issued call is the snapshot, and the loop only
runs again when externally retriggered. -/
theorem usage_loop_rollback_on_failure (ce : CreditEngine) (o : RoundOutcome)
    (rest : List RoundOutcome) (hne : ce.pending.isEmpty = false)
    (hfail : o.ok = false) :
    check_usage_for_reporting ce (o :: rest)
      = ({ pending := ce.pending.merge o.arrivals, applied := ce.applied },
         [ce.pending]) := by
  rw [check_usage_for_reporting.eq_def]
  simp only [collect_updates, hne, Bool.false_eq_true, if_false, hfail]
  simp [reset_updates, aggregate_records, emptyUpdates, UpdateSessionRequest.merge]

/-- Witness for C3: one pending charging update, a failed call with
one mid-flight arrival; the pending queue afterwards holds exactly the
snapshot followed by the arrival, and exactly one call was issued. -/
theorem usage_loop_rollback_on_failure_witness :
    check_usage_for_reporting ⟨⟨[1], []⟩, []⟩
        [⟨false, ⟨[2], []⟩, 0⟩, ⟨true, emptyUpdates, 5⟩]
      = (⟨⟨[1, 2], []⟩, []⟩, [⟨[1], []⟩]) := by
  have h := usage_loop_rollback_on_failure ⟨⟨[1], []⟩, []⟩ ⟨false, ⟨[2], []⟩, 0⟩
    [⟨true, emptyUpdates, 5⟩] (by decide) rfl
  simpa [UpdateSessionRequest.merge] using h

/-- Claim C7: with a nonempty pending queue at the start, one more
nonempty batch arriving during the first in-flight call, and all calls
succeeding, the loop issues exactly two report calls — the initial
snapshot, then the mid-flight batch — applies both acknowledgements in
order, and ends with an empty pending queue; and in general the loop
issues no call exactly when the pulled snapshot has both an empty
charging-update set and an empty monitor-update set. -/
theorem usage_loop_drains_fully (ce : CreditEngine) (extra : UpdateSessionRequest)
    (r1 r2 : Nat) (hne : ce.pending.isEmpty = false)
    (hextra : extra.isEmpty = false) :
    check_usage_for_reporting ce [⟨true, extra, r1⟩, ⟨true, emptyUpdates, r2⟩]
      = ({ pending := emptyUpdates, applied := ce.applied ++ [r1, r2] },
         [ce.pending, extra])
    ∧ ∀ (ce' : CreditEngine) (outcomes : List RoundOutcome),
        (check_usage_for_reporting ce' outcomes).2 = [] ↔ ce'.pending.isEmpty = true := by
  constructor
  · rw [check_usage_for_reporting.eq_def]
    simp only [collect_updates, hne, Bool.false_eq_true, if_false]
    have hmid : (aggregate_records { ce with pending := emptyUpdates } extra).pending
        = extra := by
      simp [aggregate_records, emptyUpdates, UpdateSessionRequest.merge]
    rw [check_usage_for_reporting.eq_def]
    simp only [collect_updates, update_session_credit, aggregate_records]
    have hex : (emptyUpdates.merge extra).isEmpty = false := by
      simpa [emptyUpdates, UpdateSessionRequest.merge] using hextra
    simp only [hex, Bool.false_eq_true, if_false]
    rw [check_usage_for_reporting.eq_def]
    simp [collect_updates, update_session_credit, aggregate_records, emptyUpdates,
      UpdateSessionRequest.merge, UpdateSessionRequest.isEmpty]
  · intro ce' outcomes
    rw [check_usage_for_reporting.eq_def]
    rcases h : ce'.pending.isEmpty with hv | hv
    · simp only [collect_updates, h, Bool.false_eq_true, if_false]
      constructor
      · intro hc
        exfalso
        match outcomes with
        | [] => simp at hc
        | o :: rest =>
          rcases ho : o.ok with hov | hov <;> simp [ho] at hc
      · intro hc
        exact hc.elim
    · simp [collect_updates, h]

/-- Witness for C7: one pending batch, one mid-flight batch, both
calls succeed: two calls issued, queue empty at the end. -/
theorem usage_loop_drains_fully_witness :
    check_usage_for_reporting ⟨⟨[1], [10]⟩, []⟩
        [⟨true, ⟨[2], []⟩, 7⟩, ⟨true, emptyUpdates, 8⟩]
      = (⟨emptyUpdates, [7, 8]⟩, [⟨[1], [10]⟩, ⟨[2], []⟩])
    ∧ (check_usage_for_reporting ⟨emptyUpdates, []⟩ []).2 = [] :=
  have h := usage_loop_drains_fully ⟨⟨[1], [10]⟩, []⟩ ⟨[2], []⟩ 7 8
    (by decide) (by decide)
  ⟨h.1, (h.2 ⟨emptyUpdates, []⟩ []).mpr (by decide)⟩

/-- Counterexample to claim C4 as stated: the invariant "at any
instant at most one usage-report call is in flight" is violated by the
code — a second ReportRuleStats arriving while the first report call
is still outstanding triggers `check_usage_for_reporting`, which has
no in-flight guard and issues a second, concurrent report call.  Two
rule-stat arrivals with nonempty records, neither call completed,
leave two calls in flight. -/
theorem usage_loop_single_flight_counterexample :
    ¬ ∀ events : List LoopEvent, ((loopRun loopInit events).inflight.length ≤ 1) := by
  intro hinv
  have h2 := hinv [LoopEvent.ruleStats ⟨[1], []⟩, LoopEvent.ruleStats ⟨[2], []⟩]
  have hval : (loopRun loopInit
      [LoopEvent.ruleStats ⟨[1], []⟩, LoopEvent.ruleStats ⟨[2], []⟩]).inflight.length
      = 2 := by decide
  omega

/-- Claim C4 (amended): the loop itself never stacks calls — its
recursive re-invocation happens only inside a completion callback,
after the completed call has left the in-flight list, and issues at
most one new call — so from a state with at most one call in flight,
any sequence of completion events keeps at most one call in flight;
the bound is broken only by a concurrent external trigger (a new
ReportRuleStats arriving mid-flight), as the counterexample shows. -/
theorem usage_loop_no_reentry_from_completions (s : LoopState)
    (events : List LoopEvent) (hcomp : ∀ e ∈ events, e.isCompletion = true)
    (hone : s.inflight.length ≤ 1) :
    (loopRun s events).inflight.length ≤ 1 := by
  induction events generalizing s with
  | nil => exact hone
  | cons e rest ih =>
    have he : e.isCompletion = true := hcomp e (List.mem_cons_self e rest)
    have hrest : ∀ e' ∈ rest, e'.isCompletion = true :=
      fun e' h' => hcomp e' (List.mem_cons_of_mem e h')
    refine ih (loopStep s e) hrest ?_
    have hentry : ∀ s' : LoopState,
        (check_usage_entry s').inflight.length ≤ s'.inflight.length + 1 := by
      intro s'
      rw [check_usage_entry]
      rcases hc : (collect_updates s'.engine).1.isEmpty with hv | hv
      · simp [hc]
      · simp [hc]
    cases e with
    | ruleStats records => exact absurd he (by simp [LoopEvent.isCompletion])
    | completeOk respId =>
      rw [loopStep]
      match hs : s.inflight with
      | [] => simp [hs]
      | r :: rest' =>
        have := hentry
          { engine := update_session_credit s.engine respId, inflight := rest' }
        have hlen : rest'.length = 0 := by
          rw [hs] at hone
          simpa using hone
        simp only [List.length_cons] at this ⊢
        omega
    | completeFail =>
      rw [loopStep]
      match hs : s.inflight with
      | [] => simp [hs]
      | r :: rest' =>
        have hlen : rest'.length = 0 := by
          rw [hs] at hone
          simpa using hone
        simp [hlen]

/-- Witness for the amended C4: one call in flight, a failure
completion then a success completion; never more than one in
flight at the end. -/
theorem usage_loop_no_reentry_witness :
    (loopRun { engine := ⟨⟨[3], []⟩, []⟩, inflight := [⟨[1], []⟩] }
      [LoopEvent.completeFail, LoopEvent.completeOk 4]).inflight.length ≤ 1 :=
  usage_loop_no_reentry_from_completions
    { engine := ⟨⟨[3], []⟩, []⟩, inflight := [⟨[1], []⟩] }
    [LoopEvent.completeFail, LoopEvent.completeOk 4]
    (by decide) (by decide)

end Magma
